import Mathlib

/-!
Verification of the device-selection resolution and action-dispatch engine of
the `qmi-firmware-update` command line tool (`src/qmi-firmware-update/qfu-main.c`).

The development shallowly embeds the validation and dispatch logic of that file:
the two option callbacks `parse_busnum_devnum` and `parse_vid_pid` (modelled on
`List Char` with a model of glibc `strtoul`), and the post-option-parsing part of
`main` (action exclusivity, image list requirement, device selection, open-mode
flag resolution, the storage index range check, and the dispatch to the four
operation collaborators). External collaborators (device lookup, the four
operations) are modelled through an oracle giving their boolean results.
-/

namespace Qfu

/-! ## Numeric limits (glib / LP64) -/

/-- `G_MAXUINT`: maximum value of a 32-bit `guint`. -/
def G_MAXUINT : Nat := 2 ^ 32 - 1

/-- `G_MAXUINT16`: maximum value of a 16-bit `guint16`. -/
def G_MAXUINT16 : Nat := 2 ^ 16 - 1

/-- `G_MAXUINT8`: maximum value of an 8-bit `guint8`. -/
def G_MAXUINT8 : Nat := 2 ^ 8 - 1

/-- `ULONG_MAX` on an LP64 platform: maximum value of a 64-bit `gulong`. -/
def ULONG_MAX : Nat := 2 ^ 64 - 1

/-! ## A model of glibc `strtoul` (bases 10 and 16 only, as used by the tool) -/

/-- The characters `isspace` accepts in the C locale. -/
def isSpaceChar (c : Char) : Bool :=
  c = ' ' || c = '\t' || c = '\n' || c = '\x0b' || c = '\x0c' || c = '\r'

/-- Drop the leading whitespace, as `strtoul` does. -/
def dropSpaces : List Char → List Char
  | [] => []
  | c :: rest => if isSpaceChar c then dropSpaces rest else c :: rest

/-- Numeric value of a (hexadecimal) digit character. -/
def hexVal (c : Char) : Nat :=
  if c.isDigit then c.toNat - '0'.toNat
  else if 'a' ≤ c ∧ c ≤ 'f' then c.toNat - 'a'.toNat + 10
  else if 'A' ≤ c ∧ c ≤ 'F' then c.toNat - 'A'.toNat + 10
  else 0

/-- Whether `c` is a digit of the given base (10 or 16). -/
def isBaseDigit (base : Nat) (c : Char) : Bool :=
  if base = 16 then c.isDigit || ('a' ≤ c && c ≤ 'f') || ('A' ≤ c && c ≤ 'F')
  else c.isDigit

/-- Accumulate the value of the longest run of base digits, unbounded. -/
def digitsValue (base : Nat) : List Char → Nat → Nat
  | [], acc => acc
  | c :: rest, acc =>
      if isBaseDigit base c then digitsValue base rest (acc * base + hexVal c) else acc

/-- Drop an optional `0x`/`0X` marker, accepted by `strtoul` in base 16. -/
def strip0x : List Char → List Char
  | '0' :: 'x' :: rest => rest
  | '0' :: 'X' :: rest => rest
  | s => s

/-- Model of glibc `strtoul (s, NULL, base)` on an LP64 platform: skip leading
whitespace, accept an optional sign, in base 16 accept an optional `0x` marker,
accumulate digit values, clamp to `ULONG_MAX` on overflow, and negate modulo
`2^64` when the sign was `-`. -/
def strtoul (s : List Char) (base : Nat) : Nat :=
  let s1 := dropSpaces s
  let signed : Bool × List Char :=
    match s1 with
    | '-' :: rest => (true, rest)
    | '+' :: rest => (false, rest)
    | _ => (false, s1)
  let s3 := if base = 16 then strip0x signed.2 else signed.2
  let mag := digitsValue base s3 0
  if mag > ULONG_MAX then ULONG_MAX
  else if signed.1 then (2 ^ 64 - mag) % 2 ^ 64
  else mag

/-! ## `g_strsplit (value, ":", -1)` -/

/-- Split a nonempty character list on `':'`, keeping empty fields
(the behavior of `g_strsplit` on nonempty input with unlimited tokens). -/
def splitFields : List Char → List (List Char)
  | [] => [[]]
  | c :: rest =>
      if c = ':' then [] :: splitFields rest
      else
        match splitFields rest with
        | [] => [[c]]
        | f :: fs => (c :: f) :: fs

/-- `g_strsplit (value, ":", -1)`: the empty string yields no tokens at all. -/
def g_strsplit (s : List Char) : List (List Char) :=
  if s.isEmpty then [] else splitFields s

/-! ## Process-scoped selection state (the file-scope option globals) -/

/-- The four numeric device-selection globals of `qfu-main.c`:
`busnum`, `devnum` (32-bit `guint`), `vid`, `pid` (16-bit `guint16`). -/
structure SelState where
  busnum : Nat
  devnum : Nat
  vid : Nat
  pid : Nat
deriving Repr, DecidableEq

/-! ## The option callbacks -/

/-- Embedding of `parse_busnum_devnum`: split the value on `':'`; with two
fields the first is the bus number and the second the device number, with one
field only the device number; three or more fields is an error; each field is
parsed base 10 and must be nonzero and at most `G_MAXUINT`. Returns the updated
globals and `none` on success, or the (partially updated) globals and the
`g_set_error` message on failure. -/
def parse_busnum_devnum (value : List Char) (st : SelState) : SelState × Option String :=
  match g_strsplit value with
  | [] => (st, some "assertion failed: strv[0]")
  | [f0] =>
      let aux := strtoul f0 10
      if aux = 0 ∨ aux > G_MAXUINT then
        (st, some ("invalid dev number: " ++ String.mk f0))
      else ({ st with devnum := aux }, none)
  | [f0, f1] =>
      let aux := strtoul f0 10
      if aux = 0 ∨ aux > G_MAXUINT then
        (st, some ("invalid bus number: " ++ String.mk f0))
      else
        let st1 := { st with busnum := aux }
        let aux2 := strtoul f1 10
        if aux2 = 0 ∨ aux2 > G_MAXUINT then
          (st1, some ("invalid dev number: " ++ String.mk f1))
        else ({ st1 with devnum := aux2 }, none)
  | _ => (st, some "invalid busnum-devnum string: too many fields")

/-- Embedding of `parse_vid_pid`: split the value on `':'`; with one field it
is the vendor id, with two fields the second (product id) is parsed and stored
first, then the first (vendor id); three or more fields is an error; each field
is parsed base 16 and must be nonzero and at most `G_MAXUINT16`. -/
def parse_vid_pid (value : List Char) (st : SelState) : SelState × Option String :=
  match g_strsplit value with
  | [] => (st, some "assertion failed: strv[0]")
  | [f0] =>
      let aux := strtoul f0 16
      if aux = 0 ∨ aux > G_MAXUINT16 then
        (st, some ("invalid vendor id: " ++ String.mk f0))
      else ({ st with vid := aux }, none)
  | [f0, f1] =>
      let aux := strtoul f1 16
      if aux = 0 ∨ aux > G_MAXUINT16 then
        (st, some ("invalid product id: " ++ String.mk f1))
      else
        let st1 := { st with pid := aux }
        let aux2 := strtoul f0 16
        if aux2 = 0 ∨ aux2 > G_MAXUINT16 then
          (st1, some ("invalid vendor id: " ++ String.mk f0))
        else ({ st1 with vid := aux2 }, none)
  | _ => (st, some "invalid vid-pid string: too many fields")

/-! ## The `main` validation and dispatch flow (after option parsing) -/

/-- The `QmiDeviceOpenFlags` bits that `main` can set: proxy, MBIM and auto.
`QMI_DEVICE_OPEN_FLAGS_NONE` has all of them clear; there is no QMI bit —
QMI mode is the absence of the MBIM and auto bits. -/
structure OpenFlags where
  proxy : Bool
  mbim : Bool
  auto : Bool
deriving Repr, DecidableEq

/-- `QMI_DEVICE_OPEN_FLAGS_NONE`. -/
def QMI_DEVICE_OPEN_FLAGS_NONE : OpenFlags := ⟨false, false, false⟩

/-- The option globals of `qfu-main.c` relevant to the `main` flow, gathered
into one record (their values after `g_option_context_parse` succeeded).
`image_strv = []` models a NULL `image_strv` (no positional arguments). -/
structure Config where
  action_update_flag : Bool
  action_reset_flag : Bool
  action_update_qdl_flag : Bool
  action_verify_flag : Bool
  device_open_proxy_flag : Bool
  device_open_qmi_flag : Bool
  device_open_mbim_flag : Bool
  device_open_auto_flag : Bool
  ignore_version_errors_flag : Bool
  override_download_flag : Bool
  skip_validation_flag : Bool
  modem_storage_index_int : Int
  firmware_version_str : Option String
  config_version_str : Option String
  carrier_str : Option String
  image_strv : List String
  version_flag : Bool
  help_flag : Bool
  help_examples_flag : Bool
deriving Repr, DecidableEq

/-- Results of the external collaborators: whether
`qfu_device_selection_new` succeeds (and its error message when it fails),
and the boolean result of each of the four `qfu_operation_*_run` entry
points. -/
structure Oracle where
  deviceSelectionOk : Bool
  deviceSelectionErr : String
  updateResult : Bool
  updateQdlResult : Bool
  resetResult : Bool
  verifyResult : Bool
deriving Repr, DecidableEq

/-- One invocation of an operation collaborator, with the normalized
arguments `main` passes to it (the opaque device-selection handle elided). -/
inductive Op where
  | update (images : List String) (firmwareVersion configVersion carrier : Option String)
      (flags : OpenFlags) (ignoreVersionErrors overrideDownload : Bool)
      (storageIndex : Nat) (skipValidation : Bool)
  | updateQdl (images : List String)
  | reset (flags : OpenFlags)
  | verify (images : List String)
deriving Repr, DecidableEq

/-- The boolean result the oracle assigns to an operation invocation. -/
def opResultOf (orc : Oracle) : Op → Bool
  | .update _ _ _ _ _ _ _ _ _ => orc.updateResult
  | .updateQdl _ => orc.updateQdlResult
  | .reset _ => orc.resetResult
  | .verify _ => orc.verifyResult

/-- `n_actions` in `main`: the number of true action flags
(gboolean arithmetic). -/
def n_actions (cfg : Config) : Nat :=
  (cond cfg.action_verify_flag 1 0) + (cond cfg.action_update_flag 1 0) +
  (cond cfg.action_update_qdl_flag 1 0) + (cond cfg.action_reset_flag 1 0)

/-- The "Validate device open flags" block of `main` (run only for the update
and reset actions): if more than one of the mbim/qmi/auto flags is set, fail;
otherwise set the proxy bit iff requested, the MBIM bit iff requested, and the
auto bit iff requested or neither QMI nor MBIM was requested. -/
def resolve_open_flags (proxy qmi mbim auto : Bool) : Except String OpenFlags :=
  if (cond mbim 1 0) + (cond qmi 1 0) + (cond auto 1 0) > 1 then
    .error "cannot specify multiple mode flags to open device"
  else
    .ok { proxy := proxy, mbim := mbim, auto := auto || (!qmi && !mbim) }

/-- The decision the `main` flow reaches: print an informational text and
succeed, fail validation with an error message, or run one operation. Each of
the last two records whether `qfu_device_selection_new` was called. -/
inductive Outcome where
  | info
  | failed (msg : String) (devAttempted : Bool)
  | run (op : Op) (devAttempted : Bool)
deriving Repr, DecidableEq

/-- The "Run" section of `main`: dispatch on the single active action flag, in
source order (update, update-qdl, reset, verify). The update action first
validates the modem storage index (`0..G_MAXUINT8`); the value is then passed
through a `guint8` cast. The trailing branch is `g_assert_not_reached`. -/
def dispatch (cfg : Config) (fl : OpenFlags) (att : Bool) : Outcome :=
  if cfg.action_update_flag then
    if cfg.modem_storage_index_int < 0 ∨ cfg.modem_storage_index_int > (G_MAXUINT8 : Int) then
      .failed "invalid modem storage index" att
    else
      .run (.update cfg.image_strv cfg.firmware_version_str cfg.config_version_str
              cfg.carrier_str fl cfg.ignore_version_errors_flag cfg.override_download_flag
              (cfg.modem_storage_index_int.toNat % 256) cfg.skip_validation_flag) att
  else if cfg.action_update_qdl_flag then
    .run (.updateQdl cfg.image_strv) att
  else if cfg.action_reset_flag then
    .run (.reset fl) att
  else if cfg.action_verify_flag then
    .run (.verify cfg.image_strv) att
  else
    .failed "assertion failed: not reached" att

/-- The control flow of `main` after option parsing, as a decision function:
informational flags short-circuit; then action cardinality is checked, then
the image list requirement, then device selection (for update, update-qdl and
reset; its success given by `devSelOk`), then the open-mode flags (for update
and reset), and finally the dispatch. -/
def decide_run (cfg : Config) (devSelOk : Bool) (devSelErr : String) : Outcome :=
  if cfg.version_flag then .info
  else if cfg.help_flag then .info
  else if cfg.help_examples_flag then .info
  else if n_actions cfg = 0 then .failed "no actions specified" false
  else if n_actions cfg > 1 then .failed "too many actions specified" false
  else if (cfg.action_verify_flag || cfg.action_update_flag || cfg.action_update_qdl_flag)
            && cfg.image_strv.isEmpty then
    .failed "no firmware images specified" false
  else if (cfg.action_update_flag || cfg.action_update_qdl_flag || cfg.action_reset_flag)
            && !devSelOk then
    .failed ("couldn't select device:: " ++ devSelErr) true
  else if cfg.action_update_flag || cfg.action_reset_flag then
    match resolve_open_flags cfg.device_open_proxy_flag cfg.device_open_qmi_flag
            cfg.device_open_mbim_flag cfg.device_open_auto_flag with
    | .error msg =>
        .failed msg (cfg.action_update_flag || cfg.action_update_qdl_flag
          || cfg.action_reset_flag)
    | .ok fl =>
        dispatch cfg fl (cfg.action_update_flag || cfg.action_update_qdl_flag
          || cfg.action_reset_flag)
  else
    dispatch cfg QMI_DEVICE_OPEN_FLAGS_NONE
      (cfg.action_update_flag || cfg.action_update_qdl_flag || cfg.action_reset_flag)

/-- Observable result of one `main` invocation: the final `result` variable,
the `g_printerr` error message (if any), whether device resolution was
attempted, and the list of operation collaborators invoked. -/
structure RunResult where
  ok : Bool
  errMsg : Option String
  deviceResolutionAttempted : Bool
  invokedOps : List Op
deriving Repr, DecidableEq

/-- The `main` flow after option parsing: the decision of `decide_run`, with
the invoked operation's boolean result (from the oracle) taken verbatim as the
overall result. -/
def runMain (cfg : Config) (orc : Oracle) : RunResult :=
  match decide_run cfg orc.deviceSelectionOk orc.deviceSelectionErr with
  | .info => ⟨true, none, false, []⟩
  | .failed msg att => ⟨false, some msg, att, []⟩
  | .run op att => ⟨opResultOf orc op, none, att, [op]⟩

/-- `return (result ? EXIT_SUCCESS : EXIT_FAILURE)`. -/
def exit_status (r : RunResult) : Nat := if r.ok then 0 else 1

/-- A configuration with no flags set and no positional arguments. -/
def cfg0 : Config :=
  { action_update_flag := false, action_reset_flag := false,
    action_update_qdl_flag := false, action_verify_flag := false,
    device_open_proxy_flag := false, device_open_qmi_flag := false,
    device_open_mbim_flag := false, device_open_auto_flag := false,
    ignore_version_errors_flag := false, override_download_flag := false,
    skip_validation_flag := false, modem_storage_index_int := 0,
    firmware_version_str := none, config_version_str := none, carrier_str := none,
    image_strv := [], version_flag := false, help_flag := false,
    help_examples_flag := false }

/-- An oracle whose collaborators all succeed. -/
def orc0 : Oracle :=
  { deviceSelectionOk := true, deviceSelectionErr := "",
    updateResult := true, updateQdlResult := true,
    resetResult := true, verifyResult := true }

/-- `--verify img.cwe`. -/
def cfgVerify : Config :=
  { cfg0 with action_verify_flag := true, image_strv := ["img.cwe"] }

/-- `--verify --device-open-qmi --device-open-mbim img.cwe`. -/
def cfgVerifyModes : Config :=
  { cfgVerify with device_open_qmi_flag := true, device_open_mbim_flag := true }

/-- `--update --modem-storage-index i img.cwe`. -/
def cfgUpdate (i : Int) : Config :=
  { cfg0 with action_update_flag := true, image_strv := ["img.cwe"],
              modem_storage_index_int := i }

/-- `--update --reset`. -/
def cfgUpdateReset : Config :=
  { cfg0 with action_update_flag := true, action_reset_flag := true }

/-! ## Helper lemmas about splitting -/

theorem splitFields_no_colon (t : List Char) (h : ':' ∉ t) : splitFields t = [t] := by
  induction t with
  | nil => rfl
  | cons c rest ih =>
    have hc : ¬(c = ':') := by
      intro hh
      exact h (by simp [hh])
    have hr : (':' : Char) ∉ rest := fun hm => h (List.mem_cons_of_mem _ hm)
    simp [splitFields, hc, ih hr]

theorem splitFields_append (bs rest : List Char) (h : ':' ∉ bs) :
    splitFields (bs ++ ':' :: rest) = bs :: splitFields rest := by
  induction bs with
  | nil => simp [splitFields]
  | cons c cs ih =>
    have hc : ¬(c = ':') := by
      intro hh
      exact h (by simp [hh])
    have hcs : (':' : Char) ∉ cs := fun hm => h (List.mem_cons_of_mem _ hm)
    simp [splitFields, hc, ih hcs]

theorem g_strsplit_single (t : List Char) (hne : t ≠ []) (h : ':' ∉ t) :
    g_strsplit t = [t] := by
  unfold g_strsplit
  rw [if_neg (by simpa using hne), splitFields_no_colon t h]

theorem g_strsplit_pair (bs ds : List Char) (hb : ':' ∉ bs) (hd : ':' ∉ ds) :
    g_strsplit (bs ++ ':' :: ds) = [bs, ds] := by
  unfold g_strsplit
  rw [if_neg (by simp), splitFields_append bs ds hb, splitFields_no_colon ds hd]

/-! ## Helper lemmas about the `main` flow -/

theorem devsel_msg_ne (e : String) :
    ("couldn't select device:: " ++ e) ≠ "no actions specified"
  ∧ ("couldn't select device:: " ++ e) ≠ "too many actions specified"
  ∧ ("couldn't select device:: " ++ e) ≠ "invalid modem storage index" := by
  refine ⟨?_, ?_, ?_⟩
  all_goals
    intro h
    have hd := congrArg String.data h
    simp at hd

theorem resolve_open_flags_error_msg {p q m a : Bool} {e : String}
    (h : resolve_open_flags p q m a = .error e) :
    e = "cannot specify multiple mode flags to open device" := by
  unfold resolve_open_flags at h
  split at h
  · injection h with h
    exact h.symm
  · cases h

theorem resolve_open_flags_ok {p q m a : Bool}
    (hmode : ¬ ((cond m 1 0) + (cond q 1 0) + (cond a 1 0) > 1)) :
    resolve_open_flags p q m a = .ok ⟨p, m, a || (!q && !m)⟩ := by
  unfold resolve_open_flags
  rw [if_neg hmode]

theorem dispatch_ne_info (cfg : Config) (fl : OpenFlags) (att : Bool) :
    dispatch cfg fl att ≠ .info := by
  unfold dispatch
  split
  · split <;> simp
  · split
    · simp
    · split
      · simp
      · split <;> simp

theorem dispatch_failed_msg {cfg : Config} {fl : OpenFlags} {att : Bool}
    {msg : String} {att2 : Bool}
    (h : dispatch cfg fl att = .failed msg att2) :
    (msg = "invalid modem storage index" ∧ cfg.action_update_flag = true)
  ∨ msg = "assertion failed: not reached" := by
  unfold dispatch at h
  split at h
  · rename_i hu
    split at h
    · injection h with h _
      exact Or.inl ⟨h.symm, hu⟩
    · cases h
  · split at h
    · cases h
    · split at h
      · cases h
      · split at h
        · cases h
        · injection h with h _
          exact Or.inr h.symm

theorem decide_run_failed_msg {cfg : Config} {ok : Bool} {err msg : String} {att : Bool}
    (h : decide_run cfg ok err = .failed msg att) :
    (msg = "no actions specified" ∧ n_actions cfg = 0)
  ∨ (msg = "too many actions specified" ∧ n_actions cfg > 1)
  ∨ msg = "no firmware images specified"
  ∨ msg = ("couldn't select device:: " ++ err)
  ∨ msg = "cannot specify multiple mode flags to open device"
  ∨ (msg = "invalid modem storage index" ∧ cfg.action_update_flag = true)
  ∨ msg = "assertion failed: not reached" := by
  unfold decide_run at h
  split at h
  · cases h
  · split at h
    · cases h
    · split at h
      · cases h
      · split at h
        · rename_i hc
          injection h with h _
          exact Or.inl ⟨h.symm, hc⟩
        · split at h
          · rename_i hc
            injection h with h _
            exact Or.inr (Or.inl ⟨h.symm, hc⟩)
          · split at h
            · injection h with h _
              exact Or.inr (Or.inr (Or.inl h.symm))
            · split at h
              · injection h with h _
                exact Or.inr (Or.inr (Or.inr (Or.inl h.symm)))
              · split at h
                · split at h
                  · rename_i heq
                    injection h with h _
                    subst h
                    exact Or.inr (Or.inr (Or.inr (Or.inr
                      (Or.inl (resolve_open_flags_error_msg heq)))))
                  · rcases dispatch_failed_msg h with h1 | h1
                    · exact Or.inr (Or.inr (Or.inr (Or.inr (Or.inr (Or.inl h1)))))
                    · exact Or.inr (Or.inr (Or.inr (Or.inr (Or.inr (Or.inr h1)))))
                · rcases dispatch_failed_msg h with h1 | h1
                  · exact Or.inr (Or.inr (Or.inr (Or.inr (Or.inr (Or.inl h1)))))
                  · exact Or.inr (Or.inr (Or.inr (Or.inr (Or.inr (Or.inr h1)))))

theorem decide_run_info_iff (cfg : Config) (ok : Bool) (err : String) :
    decide_run cfg ok err = .info ↔
      (cfg.version_flag || cfg.help_flag || cfg.help_examples_flag) = true := by
  cases hv : cfg.version_flag <;> cases hh : cfg.help_flag <;>
    cases he : cfg.help_examples_flag <;>
    simp only [decide_run, hv, hh, he, Bool.false_or, Bool.true_or, Bool.or_true,
      Bool.or_false, if_true, if_false, Bool.false_eq_true, ite_true, ite_false] <;>
    try simp
  intro h
  split at h
  · cases h
  · split at h
    · cases h
    · split at h
      · cases h
      · split at h
        · cases h
        · split at h
          · split at h
            · cases h
            · exact absurd h (dispatch_ne_info _ _ _)
          · exact absurd h (dispatch_ne_info _ _ _)

/-! ## Claims about the identifier parsers -/

/-- C3: `parse_busnum_devnum` splits on `':'`: with one field it sets only the
device number (the bus number global is untouched); with two fields the first
is the bus number and the second the device number, so every valid decimal
token `B:D` with both values nonzero and within 32-bit unsigned range yields
`busnum = B, devnum = D`; with three or more fields it fails with the message
"invalid busnum-devnum string: too many fields"; a field whose base-10 value
is 0 or exceeds `G_MAXUINT` fails with a message naming that field. -/
theorem busdev_parser_contract (st : SelState) :
    (∀ t : List Char, t ≠ [] → ':' ∉ t →
       ((strtoul t 10 = 0 ∨ strtoul t 10 > G_MAXUINT →
           parse_busnum_devnum t st = (st, some ("invalid dev number: " ++ String.mk t)))
        ∧ (strtoul t 10 ≠ 0 → strtoul t 10 ≤ G_MAXUINT →
           parse_busnum_devnum t st = ({ st with devnum := strtoul t 10 }, none))))
  ∧ (∀ bs ds : List Char, ':' ∉ bs → ':' ∉ ds →
       ((strtoul bs 10 = 0 ∨ strtoul bs 10 > G_MAXUINT →
           parse_busnum_devnum (bs ++ ':' :: ds) st =
             (st, some ("invalid bus number: " ++ String.mk bs)))
        ∧ (strtoul bs 10 ≠ 0 → strtoul bs 10 ≤ G_MAXUINT →
             (strtoul ds 10 = 0 ∨ strtoul ds 10 > G_MAXUINT) →
           parse_busnum_devnum (bs ++ ':' :: ds) st =
             ({ st with busnum := strtoul bs 10 },
              some ("invalid dev number: " ++ String.mk ds)))
        ∧ (strtoul bs 10 ≠ 0 → strtoul bs 10 ≤ G_MAXUINT →
             strtoul ds 10 ≠ 0 → strtoul ds 10 ≤ G_MAXUINT →
           parse_busnum_devnum (bs ++ ':' :: ds) st =
             ({ st with busnum := strtoul bs 10, devnum := strtoul ds 10 }, none))))
  ∧ (∀ t : List Char, 3 ≤ (g_strsplit t).length →
       parse_busnum_devnum t st =
         (st, some "invalid busnum-devnum string: too many fields")) := by
  refine ⟨fun t hne hcol => ⟨fun hbad => ?_, fun h0 hle => ?_⟩,
          fun bs ds hb hd => ⟨fun hbad => ?_, fun hb0 hble hdbad => ?_,
            fun hb0 hble hd0 hdle => ?_⟩,
          fun t h3 => ?_⟩
  · unfold parse_busnum_devnum
    rw [g_strsplit_single t hne hcol]
    simp only [if_pos hbad]
  · unfold parse_busnum_devnum
    rw [g_strsplit_single t hne hcol]
    simp only [if_neg (not_or.mpr ⟨h0, not_lt.mpr hle⟩)]
  · unfold parse_busnum_devnum
    rw [g_strsplit_pair bs ds hb hd]
    simp only [if_pos hbad]
  · unfold parse_busnum_devnum
    rw [g_strsplit_pair bs ds hb hd]
    simp only [if_neg (not_or.mpr ⟨hb0, not_lt.mpr hble⟩), if_pos hdbad]
  · unfold parse_busnum_devnum
    rw [g_strsplit_pair bs ds hb hd]
    simp only [if_neg (not_or.mpr ⟨hb0, not_lt.mpr hble⟩),
               if_neg (not_or.mpr ⟨hd0, not_lt.mpr hdle⟩)]
  · unfold parse_busnum_devnum
    rcases hsp : g_strsplit t with _ | ⟨a, _ | ⟨b, _ | ⟨c, l⟩⟩⟩ <;>
      simp [hsp] at h3 ⊢

/-- Witness for C3 at the concrete token `1:2` from the empty state. -/
theorem busdev_parser_contract_witness :
    parse_busnum_devnum ("1:2".toList) ⟨0, 0, 0, 0⟩ = (⟨1, 2, 0, 0⟩, none) := by
  have h := ((busdev_parser_contract ⟨0, 0, 0, 0⟩).2.1 ['1'] ['2']
      (by decide) (by decide)).2.2 (by decide) (by decide) (by decide) (by decide)
  exact h

/-- C4: `parse_vid_pid` splits on `':'`: with one field it sets only the
vendor id; with two fields the first is the vendor id and the second the
product id; with three or more fields it fails with "invalid vid-pid string:
too many fields"; a field whose base-16 value is 0 or exceeds `G_MAXUINT16`
fails with a message naming that field ("invalid vendor id" for the first
field, "invalid product id" for the second). -/
theorem vidpid_parser_contract (st : SelState) :
    (∀ t : List Char, t ≠ [] → ':' ∉ t →
       ((strtoul t 16 = 0 ∨ strtoul t 16 > G_MAXUINT16 →
           parse_vid_pid t st = (st, some ("invalid vendor id: " ++ String.mk t)))
        ∧ (strtoul t 16 ≠ 0 → strtoul t 16 ≤ G_MAXUINT16 →
           parse_vid_pid t st = ({ st with vid := strtoul t 16 }, none))))
  ∧ (∀ vs ps : List Char, ':' ∉ vs → ':' ∉ ps →
       ((strtoul ps 16 = 0 ∨ strtoul ps 16 > G_MAXUINT16 →
           parse_vid_pid (vs ++ ':' :: ps) st =
             (st, some ("invalid product id: " ++ String.mk ps)))
        ∧ (strtoul ps 16 ≠ 0 → strtoul ps 16 ≤ G_MAXUINT16 →
             (strtoul vs 16 = 0 ∨ strtoul vs 16 > G_MAXUINT16) →
           parse_vid_pid (vs ++ ':' :: ps) st =
             ({ st with pid := strtoul ps 16 },
              some ("invalid vendor id: " ++ String.mk vs)))
        ∧ (strtoul ps 16 ≠ 0 → strtoul ps 16 ≤ G_MAXUINT16 →
             strtoul vs 16 ≠ 0 → strtoul vs 16 ≤ G_MAXUINT16 →
           parse_vid_pid (vs ++ ':' :: ps) st =
             ({ st with pid := strtoul ps 16, vid := strtoul vs 16 }, none))))
  ∧ (∀ t : List Char, 3 ≤ (g_strsplit t).length →
       parse_vid_pid t st = (st, some "invalid vid-pid string: too many fields")) := by
  refine ⟨fun t hne hcol => ⟨fun hbad => ?_, fun h0 hle => ?_⟩,
          fun vs ps hv hp => ⟨fun hbad => ?_, fun hp0 hple hvbad => ?_,
            fun hp0 hple hv0 hvle => ?_⟩,
          fun t h3 => ?_⟩
  · unfold parse_vid_pid
    rw [g_strsplit_single t hne hcol]
    simp only [if_pos hbad]
  · unfold parse_vid_pid
    rw [g_strsplit_single t hne hcol]
    simp only [if_neg (not_or.mpr ⟨h0, not_lt.mpr hle⟩)]
  · unfold parse_vid_pid
    rw [g_strsplit_pair vs ps hv hp]
    simp only [if_pos hbad]
  · unfold parse_vid_pid
    rw [g_strsplit_pair vs ps hv hp]
    simp only [if_neg (not_or.mpr ⟨hp0, not_lt.mpr hple⟩), if_pos hvbad]
  · unfold parse_vid_pid
    rw [g_strsplit_pair vs ps hv hp]
    simp only [if_neg (not_or.mpr ⟨hp0, not_lt.mpr hple⟩),
               if_neg (not_or.mpr ⟨hv0, not_lt.mpr hvle⟩)]
  · unfold parse_vid_pid
    rcases hsp : g_strsplit t with _ | ⟨a, _ | ⟨b, _ | ⟨c, l⟩⟩⟩ <;>
      simp [hsp] at h3 ⊢

/-- Witness for C4 at the concrete token `1199:68c0` from the empty state. -/
theorem vidpid_parser_contract_witness :
    parse_vid_pid ("1199:68c0".toList) ⟨0, 0, 0, 0⟩ = (⟨0, 0, 0x1199, 0x68c0⟩, none) := by
  have h := ((vidpid_parser_contract ⟨0, 0, 0, 0⟩).2.1 ("1199".toList) ("68c0".toList)
      (by decide) (by decide)).2.2 (by decide) (by decide) (by decide) (by decide)
  exact h

/-- C10: on a two-field `vid:pid` token the product-id field is parsed and
validated first: when the product field is valid but the vendor field is
invalid, parsing fails with "invalid vendor id" yet the returned state already
holds the parsed product id; when the product field is invalid (in particular
when both fields are invalid), the reported error names the product id. -/
theorem vidpid_product_first (st : SelState) (vs ps : List Char)
    (hv : ':' ∉ vs) (hp : ':' ∉ ps) :
    (strtoul ps 16 ≠ 0 → strtoul ps 16 ≤ G_MAXUINT16 →
       (strtoul vs 16 = 0 ∨ strtoul vs 16 > G_MAXUINT16) →
       parse_vid_pid (vs ++ ':' :: ps) st =
         ({ st with pid := strtoul ps 16 },
          some ("invalid vendor id: " ++ String.mk vs)))
  ∧ ((strtoul ps 16 = 0 ∨ strtoul ps 16 > G_MAXUINT16) →
       parse_vid_pid (vs ++ ':' :: ps) st =
         (st, some ("invalid product id: " ++ String.mk ps))) := by
  constructor
  · intro hp0 hple hvbad
    unfold parse_vid_pid
    rw [g_strsplit_pair vs ps hv hp]
    simp only [if_neg (not_or.mpr ⟨hp0, not_lt.mpr hple⟩), if_pos hvbad]
  · intro hbad
    unfold parse_vid_pid
    rw [g_strsplit_pair vs ps hv hp]
    simp only [if_pos hbad]

/-- Witness for C10: `0:68c0` (vendor invalid, product valid) fails naming the
vendor id but leaves the product id written; `0:0` (both invalid) fails naming
the product id. -/
theorem vidpid_product_first_witness :
    parse_vid_pid ("0:68c0".toList) ⟨0, 0, 0, 0⟩ =
        (⟨0, 0, 0, 0x68c0⟩, some "invalid vendor id: 0")
  ∧ parse_vid_pid ("0:0".toList) ⟨0, 0, 0, 0⟩ =
        (⟨0, 0, 0, 0⟩, some "invalid product id: 0") := by
  constructor
  · exact (vidpid_product_first ⟨0, 0, 0, 0⟩ ['0'] ("68c0".toList)
      (by decide) (by decide)).1 (by decide) (by decide) (by decide)
  · exact (vidpid_product_first ⟨0, 0, 0, 0⟩ ['0'] ['0']
      (by decide) (by decide)).2 (by decide)

/-! ## Claims about the `main` flow -/

/-- C1: with no informational flag set, the run succeeds past action selection
exactly when exactly one of the four action booleans is true: with zero true
it fails with "no actions specified", with two or more true it fails with
"too many actions specified", and with exactly one true neither of those two
messages is produced; moreover the action count is 1 exactly on the four
one-hot combinations of the action booleans. -/
theorem action_exclusivity (cfg : Config) (orc : Oracle)
    (hv : cfg.version_flag = false) (hh : cfg.help_flag = false)
    (he : cfg.help_examples_flag = false) :
    (n_actions cfg = 0 →
        runMain cfg orc = ⟨false, some "no actions specified", false, []⟩)
  ∧ (n_actions cfg ≥ 2 →
        runMain cfg orc = ⟨false, some "too many actions specified", false, []⟩)
  ∧ (n_actions cfg = 1 →
        (runMain cfg orc).errMsg ≠ some "no actions specified"
      ∧ (runMain cfg orc).errMsg ≠ some "too many actions specified")
  ∧ (n_actions cfg = 1 ↔
       ((cfg.action_update_flag = true ∧ cfg.action_update_qdl_flag = false
           ∧ cfg.action_reset_flag = false ∧ cfg.action_verify_flag = false)
      ∨ (cfg.action_update_qdl_flag = true ∧ cfg.action_update_flag = false
           ∧ cfg.action_reset_flag = false ∧ cfg.action_verify_flag = false)
      ∨ (cfg.action_reset_flag = true ∧ cfg.action_update_flag = false
           ∧ cfg.action_update_qdl_flag = false ∧ cfg.action_verify_flag = false)
      ∨ (cfg.action_verify_flag = true ∧ cfg.action_update_flag = false
           ∧ cfg.action_update_qdl_flag = false ∧ cfg.action_reset_flag = false))) := by
  refine ⟨fun h0 => ?_, fun h2 => ?_, fun h1 => ?_, ?_⟩
  · unfold runMain decide_run
    simp [hv, hh, he, h0]
  · have h0 : ¬ n_actions cfg = 0 := by omega
    have hgt : n_actions cfg > 1 := by omega
    unfold runMain decide_run
    simp [hv, hh, he, h0, hgt]
  · have h0 : ¬ n_actions cfg = 0 := by omega
    have hgt : ¬ n_actions cfg > 1 := by omega
    cases hd : decide_run cfg orc.deviceSelectionOk orc.deviceSelectionErr with
    | info =>
      unfold runMain
      rw [hd]
      simp
    | failed msg att =>
      unfold runMain
      rw [hd]
      rcases decide_run_failed_msg hd with ⟨h, hc⟩ | ⟨h, hc⟩ | h | h | h | ⟨h, _⟩ | h
      · exact absurd hc h0
      · exact absurd hc hgt
      all_goals subst h
      · refine ⟨?_, ?_⟩ <;> simp
      · refine ⟨?_, ?_⟩ <;> simp only [Option.some.injEq, ne_eq]
        · exact fun hx => (devsel_msg_ne _).1 hx
        · exact fun hx => (devsel_msg_ne _).2.1 hx
      · refine ⟨?_, ?_⟩ <;> simp
      · refine ⟨?_, ?_⟩ <;> simp
      · refine ⟨?_, ?_⟩ <;> simp
    | run op att =>
      unfold runMain
      rw [hd]
      simp
  · cases h1 : cfg.action_verify_flag <;> cases h2 : cfg.action_update_flag <;>
      cases h3 : cfg.action_update_qdl_flag <;> cases h4 : cfg.action_reset_flag <;>
      simp [n_actions, h1, h2, h3, h4]

/-- Witness for C1: no action flags at all fails with "no actions specified". -/
theorem action_exclusivity_witness :
    runMain cfg0 orc0 = ⟨false, some "no actions specified", false, []⟩ :=
  (action_exclusivity cfg0 orc0 rfl rfl rfl).1 rfl

/-- C2: the open-mode resolution of `main` (performed when the pending action
is update or reset): when more than one of the mbim/qmi/auto booleans is true
it fails with "cannot specify multiple mode flags to open device" (and so does
the whole run, having reached that point); otherwise the resulting open flags
have the proxy bit iff proxy was requested, the MBIM bit iff mbim was
requested, and the auto bit iff auto was requested or neither qmi nor mbim was
requested. -/
theorem open_policy_resolution :
    (∀ p q m a : Bool,
      ((cond m 1 0) + (cond q 1 0) + (cond a 1 0) > 1 →
          resolve_open_flags p q m a =
            .error "cannot specify multiple mode flags to open device")
    ∧ ((cond m 1 0) + (cond q 1 0) + (cond a 1 0) ≤ 1 →
          resolve_open_flags p q m a = .ok ⟨p, m, a || (!q && !m)⟩))
  ∧ (∀ (cfg : Config) (orc : Oracle),
      cfg.version_flag = false → cfg.help_flag = false →
      cfg.help_examples_flag = false →
      (cfg.action_update_flag = true ∨ cfg.action_reset_flag = true) →
      n_actions cfg = 1 →
      ((cfg.action_verify_flag || cfg.action_update_flag
          || cfg.action_update_qdl_flag) && cfg.image_strv.isEmpty) = false →
      orc.deviceSelectionOk = true →
      (cond cfg.device_open_mbim_flag 1 0) + (cond cfg.device_open_qmi_flag 1 0)
        + (cond cfg.device_open_auto_flag 1 0) > 1 →
      runMain cfg orc =
        ⟨false, some "cannot specify multiple mode flags to open device",
         true, []⟩) := by
  constructor
  · intro p q m a
    constructor
    · intro h
      unfold resolve_open_flags
      rw [if_pos h]
    · intro h
      unfold resolve_open_flags
      rw [if_neg (by omega)]
  · intro cfg orc hv hh he hur hn himgok hdev hconf
    have h0 : ¬ n_actions cfg = 0 := by omega
    have h1 : ¬ n_actions cfg > 1 := by omega
    have herr : resolve_open_flags cfg.device_open_proxy_flag cfg.device_open_qmi_flag
        cfg.device_open_mbim_flag cfg.device_open_auto_flag =
        .error "cannot specify multiple mode flags to open device" := by
      unfold resolve_open_flags
      rw [if_pos hconf]
    unfold runMain decide_run
    rw [if_neg (by simp [hv]), if_neg (by simp [hh]), if_neg (by simp [he]),
        if_neg h0, if_neg h1, if_neg (by simp [himgok]),
        if_neg (by simp [hdev]),
        if_pos (show (cfg.action_update_flag || cfg.action_reset_flag) = true by
          rcases hur with h | h <;> simp [h]),
        herr]
    rcases hur with h | h <;> simp [h]

/-- Witness for C2: qmi+mbim fails; all-false resolves to auto; mbim-only
resolves to mbim-only; proxy+auto resolves to proxy+auto. -/
theorem open_policy_resolution_witness :
    resolve_open_flags false true true false =
        .error "cannot specify multiple mode flags to open device"
  ∧ resolve_open_flags false false false false = .ok ⟨false, false, true⟩
  ∧ resolve_open_flags false false true false = .ok ⟨false, true, false⟩
  ∧ resolve_open_flags true false false true = .ok ⟨true, false, true⟩ :=
  ⟨(open_policy_resolution.1 false true true false).1 (by decide),
   (open_policy_resolution.1 false false false false).2 (by decide),
   (open_policy_resolution.1 false false true false).2 (by decide),
   (open_policy_resolution.1 true false false true).2 (by decide)⟩

/-- C7: at most one operation collaborator is invoked per run; whenever a
validation error message is produced, no operation is invoked; and with both
the update and reset flags set (and no informational flag) the run fails with
"too many actions specified", without attempting device resolution and
without invoking any operation. -/
theorem single_dispatch (cfg : Config) (orc : Oracle) :
    ((runMain cfg orc).invokedOps.length ≤ 1)
  ∧ ((runMain cfg orc).errMsg ≠ none → (runMain cfg orc).invokedOps = [])
  ∧ (cfg.action_update_flag = true → cfg.action_reset_flag = true →
       cfg.version_flag = false → cfg.help_flag = false →
       cfg.help_examples_flag = false →
       runMain cfg orc = ⟨false, some "too many actions specified", false, []⟩) := by
  refine ⟨?_, ?_, fun hu hr hv hh he => ?_⟩
  · unfold runMain
    cases decide_run cfg orc.deviceSelectionOk orc.deviceSelectionErr <;> simp
  · unfold runMain
    cases decide_run cfg orc.deviceSelectionOk orc.deviceSelectionErr <;> simp
  · have hgt : n_actions cfg > 1 := by
      unfold n_actions
      rw [hu, hr]
      cases cfg.action_verify_flag <;> cases cfg.action_update_qdl_flag <;> simp
    have h0 : ¬ n_actions cfg = 0 := by omega
    unfold runMain decide_run
    simp [hv, hh, he, h0, hgt]

/-- Witness for C7: `--update --reset` fails with "too many actions
specified", with no device resolution and no operation invocation. -/
theorem single_dispatch_witness :
    runMain cfgUpdateReset orc0 = ⟨false, some "too many actions specified", false, []⟩ :=
  (single_dispatch cfgUpdateReset orc0).2.2 rfl rfl rfl rfl rfl

/-- C5: when the single selected action is verify, update or update-qdl and
the image list is absent, the run fails with "no firmware images specified"
(before device resolution and without invoking any operation). -/
theorem images_required (cfg : Config) (orc : Oracle)
    (hv : cfg.version_flag = false) (hh : cfg.help_flag = false)
    (he : cfg.help_examples_flag = false)
    (hn : n_actions cfg = 1)
    (hw : (cfg.action_verify_flag || cfg.action_update_flag
            || cfg.action_update_qdl_flag) = true)
    (himg : cfg.image_strv = []) :
    runMain cfg orc = ⟨false, some "no firmware images specified", false, []⟩ := by
  have h0 : ¬ n_actions cfg = 0 := by omega
  have h1 : ¬ n_actions cfg > 1 := by omega
  have hcond : ((cfg.action_verify_flag || cfg.action_update_flag
      || cfg.action_update_qdl_flag) && cfg.image_strv.isEmpty) = true := by
    rw [hw, himg]
    rfl
  unfold runMain decide_run
  rw [if_neg (by simp [hv]), if_neg (by simp [hh]), if_neg (by simp [he]),
      if_neg h0, if_neg h1, if_pos hcond]

/-- Witness for C5: `--verify` with no positional image arguments. -/
theorem images_required_witness :
    runMain { cfg0 with action_verify_flag := true } orc0 =
      ⟨false, some "no firmware images specified", false, []⟩ :=
  images_required { cfg0 with action_verify_flag := true } orc0
    rfl rfl rfl rfl rfl rfl

/-- C6: for a single update action that passed the image, device-selection and
open-mode checks, the modem storage index is accepted exactly when it lies in
`0..255`: outside that range the run fails with "invalid modem storage index",
inside it the update operation is dispatched with the index passed through a
`guint8` cast; and no run without the update action ever produces that
message. -/
theorem storage_index_range (cfg : Config) (orc : Oracle)
    (hv : cfg.version_flag = false) (hh : cfg.help_flag = false)
    (he : cfg.help_examples_flag = false)
    (hu : cfg.action_update_flag = true)
    (hverify : cfg.action_verify_flag = false)
    (hq : cfg.action_update_qdl_flag = false)
    (hr : cfg.action_reset_flag = false)
    (himg : cfg.image_strv ≠ [])
    (hdev : orc.deviceSelectionOk = true)
    (hmode : ¬ ((cond cfg.device_open_mbim_flag 1 0) + (cond cfg.device_open_qmi_flag 1 0)
                + (cond cfg.device_open_auto_flag 1 0) > 1)) :
    ((cfg.modem_storage_index_int < 0 ∨ cfg.modem_storage_index_int > 255) →
        runMain cfg orc = ⟨false, some "invalid modem storage index", true, []⟩)
  ∧ ((0 ≤ cfg.modem_storage_index_int ∧ cfg.modem_storage_index_int ≤ 255) →
        runMain cfg orc =
          ⟨orc.updateResult, none, true,
           [Op.update cfg.image_strv cfg.firmware_version_str cfg.config_version_str
              cfg.carrier_str
              ⟨cfg.device_open_proxy_flag, cfg.device_open_mbim_flag,
               cfg.device_open_auto_flag
                 || (!cfg.device_open_qmi_flag && !cfg.device_open_mbim_flag)⟩
              cfg.ignore_version_errors_flag cfg.override_download_flag
              (cfg.modem_storage_index_int.toNat % 256) cfg.skip_validation_flag]⟩)
  ∧ (∀ (cfg2 : Config) (orc2 : Oracle), cfg2.action_update_flag = false →
        (runMain cfg2 orc2).errMsg ≠ some "invalid modem storage index") := by
  have himg' : cfg.image_strv.isEmpty = false := by
    cases hc : cfg.image_strv with
    | nil => exact absurd hc himg
    | cons a l => rfl
  have hmax : (G_MAXUINT8 : Int) = 255 := by decide
  have hn : n_actions cfg = 1 := by
    unfold n_actions
    rw [hverify, hu, hq, hr]
    rfl
  have h0 : ¬ n_actions cfg = 0 := by omega
  have h1 : ¬ n_actions cfg > 1 := by omega
  refine ⟨fun hbad => ?_, fun hgood => ?_, fun cfg2 orc2 hu2 => ?_⟩
  · unfold runMain decide_run
    rw [if_neg (by simp [hv]), if_neg (by simp [hh]), if_neg (by simp [he]),
        if_neg h0, if_neg h1, if_neg (by simp [himg']),
        if_neg (by simp [hdev]), if_pos (by simp [hu]),
        resolve_open_flags_ok hmode]
    simp only []
    unfold dispatch
    rw [if_pos hu, if_pos (by rw [hmax]; exact hbad)]
    simp [hu, hq, hr]
  · unfold runMain decide_run
    rw [if_neg (by simp [hv]), if_neg (by simp [hh]), if_neg (by simp [he]),
        if_neg h0, if_neg h1, if_neg (by simp [himg']),
        if_neg (by simp [hdev]), if_pos (by simp [hu]),
        resolve_open_flags_ok hmode]
    simp only []
    unfold dispatch
    rw [if_pos hu, if_neg (by rw [hmax]; omega)]
    simp [hu, hq, hr, opResultOf]
  · cases hd : decide_run cfg2 orc2.deviceSelectionOk orc2.deviceSelectionErr with
    | info =>
      unfold runMain
      rw [hd]
      simp
    | failed msg att =>
      unfold runMain
      rw [hd]
      rcases decide_run_failed_msg hd with ⟨h, _⟩ | ⟨h, _⟩ | h | h | h | ⟨h, hc⟩ | h
      · subst h; simp
      · subst h; simp
      · subst h; simp
      · subst h
        simp only [Option.some.injEq, ne_eq]
        exact fun hx => (devsel_msg_ne _).2.2 hx
      · subst h; simp
      · rw [hu2] at hc; cases hc
      · subst h; simp
    | run op att =>
      unfold runMain
      rw [hd]
      simp

/-- Witness for C6: with a single update action and one image, storage index
255 is accepted, 256 is rejected and -1 is rejected. -/
theorem storage_index_range_witness :
    runMain (cfgUpdate 255) orc0 =
      ⟨true, none, true,
       [Op.update ["img.cwe"] none none none ⟨false, false, true⟩ false false 255 false]⟩
  ∧ runMain (cfgUpdate 256) orc0 = ⟨false, some "invalid modem storage index", true, []⟩
  ∧ runMain (cfgUpdate (-1)) orc0 = ⟨false, some "invalid modem storage index", true, []⟩ :=
  ⟨(storage_index_range (cfgUpdate 255) orc0 rfl rfl rfl rfl rfl rfl rfl
      (by simp [cfgUpdate, cfg0]) rfl (by decide)).2.1 (by decide),
   (storage_index_range (cfgUpdate 256) orc0 rfl rfl rfl rfl rfl rfl rfl
      (by simp [cfgUpdate, cfg0]) rfl (by decide)).1 (by decide),
   (storage_index_range (cfgUpdate (-1)) orc0 rfl rfl rfl rfl rfl rfl rfl
      (by simp [cfgUpdate, cfg0]) rfl (by decide)).1 (by decide)⟩

/-- C8: the exit status is success exactly when an informational flag was
handled or the single dispatched operation reported success; the dispatched
operation's boolean result is passed through unchanged; and every run that
produces a validation error message exits with failure. -/
theorem exit_status_contract (cfg : Config) (orc : Oracle) :
    (exit_status (runMain cfg orc) = 0 ↔
       ((cfg.version_flag || cfg.help_flag || cfg.help_examples_flag) = true
        ∨ ∃ op, (runMain cfg orc).invokedOps = [op] ∧ opResultOf orc op = true))
  ∧ (∀ op, (runMain cfg orc).invokedOps = [op] →
        (runMain cfg orc).ok = opResultOf orc op)
  ∧ ((runMain cfg orc).errMsg ≠ none → exit_status (runMain cfg orc) ≠ 0) := by
  cases hd : decide_run cfg orc.deviceSelectionOk orc.deviceSelectionErr with
  | info =>
    have hinfo := (decide_run_info_iff cfg orc.deviceSelectionOk
      orc.deviceSelectionErr).mp hd
    unfold runMain
    rw [hd]
    simp [exit_status, hinfo]
  | failed msg att =>
    have hninfo : ¬ (cfg.version_flag || cfg.help_flag
        || cfg.help_examples_flag) = true := by
      intro hc
      rw [(decide_run_info_iff cfg orc.deviceSelectionOk
        orc.deviceSelectionErr).mpr hc] at hd
      cases hd
    unfold runMain
    rw [hd]
    simp [exit_status, hninfo]
  | run op att =>
    have hninfo : ¬ (cfg.version_flag || cfg.help_flag
        || cfg.help_examples_flag) = true := by
      intro hc
      rw [(decide_run_info_iff cfg orc.deviceSelectionOk
        orc.deviceSelectionErr).mpr hc] at hd
      cases hd
    unfold runMain
    rw [hd]
    cases hres : opResultOf orc op <;> simp [exit_status, hninfo, hres]

/-- Witness for C8: a dispatched verify operation whose collaborator succeeds
exits with status 0, and its result is passed through unchanged. -/
theorem exit_status_contract_witness :
    exit_status (runMain cfgVerify orc0) = 0
  ∧ (runMain cfgVerify orc0).ok = opResultOf orc0 (.verify ["img.cwe"]) :=
  ⟨(exit_status_contract cfgVerify orc0).1.mpr
      (Or.inr ⟨.verify ["img.cwe"], rfl, rfl⟩),
   (exit_status_contract cfgVerify orc0).2.1 (.verify ["img.cwe"]) rfl⟩

/-- C9: the open-policy computation is performed only for the update and reset
actions: when the single action is verify or update-qdl, every combination of
the open-mode booleans (including qmi and mbim both true) produces no
"cannot specify multiple mode flags to open device" error and the run
dispatches the operation. -/
theorem open_policy_scoped (cfg : Config) (orc : Oracle)
    (hv : cfg.version_flag = false) (hh : cfg.help_flag = false)
    (he : cfg.help_examples_flag = false)
    (himg : cfg.image_strv ≠ []) :
    (cfg.action_verify_flag = true → cfg.action_update_flag = false →
       cfg.action_update_qdl_flag = false → cfg.action_reset_flag = false →
       runMain cfg orc = ⟨orc.verifyResult, none, false, [.verify cfg.image_strv]⟩)
  ∧ (cfg.action_update_qdl_flag = true → cfg.action_update_flag = false →
       cfg.action_verify_flag = false → cfg.action_reset_flag = false →
       orc.deviceSelectionOk = true →
       runMain cfg orc =
         ⟨orc.updateQdlResult, none, true, [.updateQdl cfg.image_strv]⟩) := by
  have himg' : cfg.image_strv.isEmpty = false := by
    cases hc : cfg.image_strv with
    | nil => exact absurd hc himg
    | cons a l => rfl
  constructor
  · intro h1 h2 h3 h4
    unfold runMain decide_run dispatch
    simp [hv, hh, he, h1, h2, h3, h4, n_actions, himg', opResultOf]
  · intro h1 h2 h3 h4 hdev
    unfold runMain decide_run dispatch
    simp [hv, hh, he, h1, h2, h3, h4, hdev, n_actions, himg', opResultOf]

/-- Witness for C9: a verify run with both qmi and mbim mode flags set still
dispatches the verify operation with no mode-conflict error. -/
theorem open_policy_scoped_witness :
    runMain cfgVerifyModes orc0 = ⟨true, none, false, [.verify ["img.cwe"]]⟩ :=
  (open_policy_scoped cfgVerifyModes orc0 rfl rfl rfl
    (by simp [cfgVerifyModes, cfgVerify, cfg0])).1 rfl rfl rfl rfl

end Qfu
